import Mathlib

/-!
Shallow embedding of `nativegres.py`: a small layer that turns SQL
templates into callable query functions over a pooled connection.

The module-level constants of the source are `NULL = None`, `SCALAR = 0`,
`ROW = 1`, `ROWS = 2`, `NOTHING = None`.  The `returning` argument is a
Python value compared with `==` against the integers 0, 1, 2 and with
`is` against `None`, so it is embedded as `Option Int` (`none` standing
for Python `None`).

The external capabilities (psycopg2 pool, connection, cursor) are
embedded as an oracle `Backend` supplied per invocation: the outcome of
`_pool.getconn()`, the outcome of `cur.execute(sql, arguments)` (either a
raised exception or the materialized row set the cursor will yield), and
the outcome of `conn.commit()`.  Every observable call the invocation
makes on the pool and the connection is recorded in an event trace, in
program order, so that claims about release/rollback/commit counts and
ordering become statements about the trace.
-/

namespace Nativegres

/-- Database cell as seen through the cursor: `none` is SQL NULL, which
psycopg2 materializes as Python `None`. -/
abbrev Cell := Option Int

/-- A row materialized by the cursor (psycopg2 named tuple, indexable). -/
abbrev Row := List Cell

/-- The full row set an executed cursor will yield. -/
abbrev RowSet := List Row

/-- Python runtime values that flow through the wrapper: `cell c` is a
scalar column value (`cell Option.none` is Python `None`), `row r` a row
object, `rows rs` the list returned by `fetchall`. -/
inductive PyVal where
  | cell (c : Cell)
  | row (r : Row)
  | rows (rs : RowSet)
deriving DecidableEq, Repr

/-- Exceptions distinguished by the source: `pgError` is any
`psycopg2.Error` (the only class the `except` clause catches);
`valueError`, `indexError` and `assertionError` are the ordinary Python
exceptions the source itself can raise; `otherError` is any other
exception (e.g. one raised by a caller-supplied `pipe`). -/
inductive Exc where
  | pgError (msg : String)
  | valueError (msg : String)
  | indexError
  | assertionError
  | otherError (msg : String)
deriving DecidableEq, Repr

/-- Whether an exception is an instance of `psycopg2.Error`, the class
tested by the `except psycopg2.Error` clause of `query`. -/
def Exc.isPg : Exc → Bool
  | .pgError _ => true
  | _ => false

/-- Observable calls an invocation makes on the pool and the connection,
in program order: `acquireCall` is `_pool.getconn()` being invoked,
`executeCall` is `cur.execute(...)` being invoked, `commitOk` a
`conn.commit()` that succeeded, `commitFail` a `conn.commit()` that
raised, `rollback` is `conn.rollback()`, `release` is
`_pool.putconn(conn)`. -/
inductive Ev where
  | acquireCall
  | executeCall
  | commitOk
  | commitFail
  | rollback
  | release
deriving DecidableEq, Repr

/-- The argument set bound to the statement: `*args` or `**kwargs`. -/
inductive QueryArgs where
  | positional (xs : List PyVal)
  | keyed (m : List (String × PyVal))
deriving DecidableEq, Repr

/-- Oracle for the external pool/connection/cursor capabilities during
one invocation: the outcome of `_pool.getconn()`, of
`cur.execute(sql, arguments)` (exception, or the rows the cursor then
yields), and of `conn.commit()`.  `conn.rollback()` and
`_pool.putconn(conn)` are modelled as always succeeding, as the source
assumes. -/
structure Backend where
  acquire : Except Exc Unit
  execute : String → Option QueryArgs → Except Exc RowSet
  commitResult : Except Exc Unit

/-- Source constant `NULL = None`. -/
def NULL : PyVal := .cell Option.none

/-- Source constant `SCALAR = 0`. -/
def SCALAR : Option Int := some 0

/-- Source constant `ROW = 1`. -/
def ROW : Option Int := some 1

/-- Source constant `ROWS = 2`. -/
def ROWS : Option Int := some 2

/-- Source constant `NOTHING = None`. -/
def NOTHING : Option Int := Option.none

/-- The `fetch` closure built for `returning == SCALAR` (source lines
57-62): `row = cur.fetchone()`; `if row is None or row[0] is None:
return default`, `else: return row[0]`.  Python evaluates `row[0]` when
`row` is not `None`, so a zero-column row raises `IndexError`. -/
def fetchScalar (default : PyVal) (rows : RowSet) : Except Exc PyVal :=
  match rows.head? with
  | Option.none => .ok default
  | some row =>
    match row.head? with
    | Option.none => .error .indexError
    | some c => if c = Option.none then .ok default else .ok (.cell c)

/-- The `fetch` closure built for `returning == ROW` (source lines
64-69): `row = cur.fetchone()`; `None` yields `default`, otherwise the
row itself. -/
def fetchRow (default : PyVal) (rows : RowSet) : Except Exc PyVal :=
  match rows.head? with
  | Option.none => .ok default
  | some row => .ok (.row row)

/-- The `fetch` closure built for `returning == ROWS` (source lines
71-72): `return cur.fetchall()`. -/
def fetchRows (rows : RowSet) : Except Exc PyVal :=
  .ok (.rows rows)

/-- The `fetch` closure built for `returning is NOTHING` (source lines
74-75): `return NULL`. -/
def fetchNothing (_rows : RowSet) : Except Exc PyVal :=
  .ok NULL

/-- The `arguments` local of `query` (source lines 80-86): `None`, then
`args` if non-empty, else `kwargs` if non-empty.  (The both-non-empty
case raises before this value is used.) -/
def mkArguments (args : List PyVal) (kwargs : List (String × PyVal)) :
    Option QueryArgs :=
  if args ≠ [] then some (.positional args)
  else if kwargs ≠ [] then some (.keyed kwargs)
  else Option.none

/-- The body of the `try` block of `query` (source lines 90-94): execute
the statement, run the bound `fetch` on the cursor, and, when `commit`
was requested, `conn.commit()`.  Returns the events this block emitted
together with its outcome (the shaped result, or the exception that
escaped the block). -/
def tryBody (sql : String) (fetch : RowSet → Except Exc PyVal)
    (commit : Bool) (b : Backend) (arguments : Option QueryArgs) :
    List Ev × Except Exc PyVal :=
  match b.execute sql arguments with
  | .error e => ([.executeCall], .error e)
  | .ok rows =>
    match fetch rows with
    | .error e => ([.executeCall], .error e)
    | .ok res =>
      if commit then
        match b.commitResult with
        | .ok _ => ([.executeCall, .commitOk], .ok res)
        | .error e => ([.executeCall, .commitFail], .error e)
      else ([.executeCall], .ok res)

/-- The `query` closure produced by `query_factory` (source lines
79-104).  Argument check, `conn = _pool.getconn()`, then the `try`
block; `except psycopg2.Error: conn.rollback(); raise`, `finally:
_pool.putconn(conn)`; after the protected region, `pipe(res)` when a
pipe was declared, else `res`.  Returns the event trace and the
invocation's outcome. -/
def query (sql : String) (fetch : RowSet → Except Exc PyVal)
    (commit : Bool) (pipe : Option (PyVal → Except Exc PyVal))
    (args : List PyVal) (kwargs : List (String × PyVal)) (b : Backend) :
    List Ev × Except Exc PyVal :=
  if args ≠ [] ∧ kwargs ≠ [] then
    ([], .error (.valueError
      "Cannot pass both positional and keyword arguments to a query."))
  else
    match b.acquire with
    | .error e => ([.acquireCall], .error e)
    | .ok _ =>
      match tryBody sql fetch commit b (mkArguments args kwargs) with
      | (evs, .ok res) =>
        (.acquireCall :: evs ++ [.release],
          match pipe with
          | Option.none => .ok res
          | some p => p res)
      | (evs, .error e) =>
        if e.isPg then
          (.acquireCall :: evs ++ [.rollback, .release], .error e)
        else
          (.acquireCall :: evs ++ [.release], .error e)

/-- The type of a built query function: positional args, keyword args
and the backend oracle for this invocation, to the event trace and the
outcome. -/
abbrev QueryFn :=
  List PyVal → List (String × PyVal) → Backend → List Ev × Except Exc PyVal

/-- `query_factory` (source lines 31-106): dispatch on `returning`
(`== SCALAR`, `== ROW`, `== ROWS`, `is NOTHING`, else
`raise ValueError(...)`) selects the `fetch` closure and returns the
`query` closure; an unknown kind raises at build time and no query
function is produced. -/
def query_factory (sql : String) (returning : Option Int) (default : PyVal)
    (commit : Bool) (pipe : Option (PyVal → Except Exc PyVal)) :
    Except Exc QueryFn :=
  if returning = SCALAR then .ok (query sql (fetchScalar default) commit pipe)
  else if returning = ROW then .ok (query sql (fetchRow default) commit pipe)
  else if returning = ROWS then .ok (query sql fetchRows commit pipe)
  else if returning = NOTHING then .ok (query sql fetchNothing commit pipe)
  else .error (.valueError "Unknown query return type")

/-- Pool-construction event: `ThreadedConnectionPool(...)` being
invoked, which is what opens connections. -/
inductive InitEv where
  | openPool
deriving DecidableEq, Repr

/-- The constructed pool value (its bounds; the live connections are
behind the `Backend` oracle). -/
structure Pool where
  minconn : Int
  maxconn : Int
deriving DecidableEq, Repr

/-- The source's `initialize` (lines 13-108): `assert maxconn >= minconn
> 0` (an `AssertionError` escapes before the pool is constructed), then
builds the `ThreadedConnectionPool` and returns `(_pool, query_factory)`.
Returns the pool-construction events alongside the outcome, so that
"before any connection is opened" is the absence of `openPool`. -/
def initializePool (minconn maxconn : Int) :
    List InitEv × Except Exc (Pool ×
      (String → Option Int → PyVal → Bool →
        Option (PyVal → Except Exc PyVal) → Except Exc QueryFn)) :=
  if maxconn ≥ minconn ∧ minconn > 0 then
    ([.openPool], .ok (⟨minconn, maxconn⟩, query_factory))
  else
    ([], .error .assertionError)

/-- Backend fixture: acquisition succeeds, the cursor yields one row
`(5)`, commit succeeds. -/
def backendOneRow : Backend :=
  ⟨.ok (), fun _ _ => .ok [[some 5]], .ok ()⟩

/-- Backend fixture: acquisition succeeds, the cursor yields zero rows,
commit succeeds. -/
def backendNoRows : Backend :=
  ⟨.ok (), fun _ _ => .ok [], .ok ()⟩

/-- Backend fixture: the cursor yields a single zero-column row, as
PostgreSQL produces for `SELECT FROM t` on a one-row table. -/
def backendEmptyRow : Backend :=
  ⟨.ok (), fun _ _ => .ok [[]], .ok ()⟩

/-- Backend fixture: `cur.execute` raises a `psycopg2.Error`. -/
def backendExecFails : Backend :=
  ⟨.ok (), fun _ _ => .error (.pgError "syntax error"), .ok ()⟩

/-- Backend fixture: execution succeeds with one row, `conn.commit()`
raises a `psycopg2.Error`. -/
def backendCommitFails : Backend :=
  ⟨.ok (), fun _ _ => .ok [[some 5]], .error (.pgError "commit failed")⟩

/-- Backend fixture: `_pool.getconn()` raises. -/
def backendAcquireFails : Backend :=
  ⟨.error (.pgError "connection pool exhausted"), fun _ _ => .ok [], .ok ()⟩

/-- Backend fixture: the first row's first column is a SQL NULL. -/
def backendNullCell : Backend :=
  ⟨.ok (), fun _ _ => .ok [[Option.none, some 3]], .ok ()⟩

/-- Helper: a caller may not supply both positional and keyword
arguments; either one being empty refutes the guard of `query`. -/
theorem not_both_args (args : List PyVal) (kwargs : List (String × PyVal))
    (hargs : args = [] ∨ kwargs = []) : ¬(args ≠ [] ∧ kwargs ≠ []) := by
  rcases hargs with h | h <;> simp [h]

/-- Helper: the try block emits exactly one of three event lists, none
of which contains an acquire, rollback or release event. -/
theorem tryBody_events (sql : String) (fetch : RowSet → Except Exc PyVal)
    (commit : Bool) (b : Backend) (arguments : Option QueryArgs) :
    (tryBody sql fetch commit b arguments).1 = [Ev.executeCall]
    ∨ (tryBody sql fetch commit b arguments).1 = [Ev.executeCall, Ev.commitOk]
    ∨ (tryBody sql fetch commit b arguments).1 = [Ev.executeCall, Ev.commitFail] := by
  rcases hex : b.execute sql arguments with e | rows
  · exact Or.inl (by simp [tryBody, hex])
  · rcases hf : fetch rows with e | res
    · exact Or.inl (by simp [tryBody, hex, hf])
    · cases commit
      · exact Or.inl (by simp [tryBody, hex, hf])
      · rcases hcm : b.commitResult with e | u
        · exact Or.inr (Or.inr (by simp [tryBody, hex, hf, hcm]))
        · exact Or.inr (Or.inl (by simp [tryBody, hex, hf, hcm]))

/-- Helper: when the try block escapes with an exception, its events
are the execute call alone or the execute call followed by the failed
commit; in particular it never emitted a successful commit. -/
theorem tryBody_err_events (sql : String) (fetch : RowSet → Except Exc PyVal)
    (commit : Bool) (b : Backend) (arguments : Option QueryArgs) (e : Exc)
    (h : (tryBody sql fetch commit b arguments).2 = Except.error e) :
    (tryBody sql fetch commit b arguments).1 = [Ev.executeCall]
    ∨ (tryBody sql fetch commit b arguments).1 = [Ev.executeCall, Ev.commitFail] := by
  rcases hex : b.execute sql arguments with e' | rows
  · exact Or.inl (by simp [tryBody, hex])
  · rcases hf : fetch rows with e' | res
    · exact Or.inl (by simp [tryBody, hex, hf])
    · cases commit
      · exact Or.inl (by simp [tryBody, hex, hf])
      · rcases hcm : b.commitResult with e' | u
        · exact Or.inr (by simp [tryBody, hex, hf, hcm])
        · exact absurd h (by simp [tryBody, hex, hf, hcm])

/-- Helper: when commit was requested and the try block returned a
result, the block executed the statement and committed, in that order. -/
theorem tryBody_ok_commit_events (sql : String)
    (fetch : RowSet → Except Exc PyVal) (b : Backend)
    (arguments : Option QueryArgs) (res : PyVal)
    (h : (tryBody sql fetch true b arguments).2 = Except.ok res) :
    (tryBody sql fetch true b arguments).1 = [Ev.executeCall, Ev.commitOk] := by
  rcases hex : b.execute sql arguments with e' | rows
  · exact absurd h (by simp [tryBody, hex])
  · rcases hf : fetch rows with e' | res'
    · exact absurd h (by simp [tryBody, hex, hf])
    · rcases hcm : b.commitResult with e' | u
      · exact absurd h (by simp [tryBody, hex, hf, hcm])
      · simp [tryBody, hex, hf, hcm]

/-- Helper: composition of the three steps of the try block when all of
them succeed. -/
theorem tryBody_ok_of (sql : String) (fetch : RowSet → Except Exc PyVal)
    (commit : Bool) (b : Backend) (arguments : Option QueryArgs)
    (rows : RowSet) (res : PyVal)
    (hex : b.execute sql arguments = Except.ok rows)
    (hf : fetch rows = Except.ok res)
    (hcm : b.commitResult = Except.ok ()) :
    (tryBody sql fetch commit b arguments).2 = Except.ok res := by
  cases commit
  · simp [tryBody, hex, hf]
  · simp [tryBody, hex, hf, hcm]

/-- Helper: shape of a successful invocation — acquisition succeeded
and the try block produced `res`; the trace is the acquire call, the
try-block events, then the release, and the outcome is `res` piped
through the transform when one was declared. -/
theorem query_ok_shape (sql : String) (fetch : RowSet → Except Exc PyVal)
    (commit : Bool) (pipe : Option (PyVal → Except Exc PyVal))
    (args : List PyVal) (kwargs : List (String × PyVal)) (b : Backend)
    (res : PyVal)
    (hargs : args = [] ∨ kwargs = []) (hacq : b.acquire = Except.ok ())
    (hbody : (tryBody sql fetch commit b (mkArguments args kwargs)).2
      = Except.ok res) :
    query sql fetch commit pipe args kwargs b
      = (Ev.acquireCall
          :: (tryBody sql fetch commit b (mkArguments args kwargs)).1
          ++ [Ev.release],
        match pipe with
        | Option.none => Except.ok res
        | some p => p res) := by
  rcases htb : tryBody sql fetch commit b (mkArguments args kwargs) with ⟨evs, r⟩
  rw [htb] at hbody
  simp only at hbody
  subst hbody
  simp [query, not_both_args args kwargs hargs, hacq, htb]

/-- Helper: shape of a failing invocation — acquisition succeeded and
the try block escaped with exception `e`; the exception is re-raised,
after a rollback (only when it is a `psycopg2.Error`) and the release. -/
theorem query_err_shape (sql : String) (fetch : RowSet → Except Exc PyVal)
    (commit : Bool) (pipe : Option (PyVal → Except Exc PyVal))
    (args : List PyVal) (kwargs : List (String × PyVal)) (b : Backend)
    (e : Exc)
    (hargs : args = [] ∨ kwargs = []) (hacq : b.acquire = Except.ok ())
    (hbody : (tryBody sql fetch commit b (mkArguments args kwargs)).2
      = Except.error e) :
    query sql fetch commit pipe args kwargs b
      = (Ev.acquireCall
          :: (tryBody sql fetch commit b (mkArguments args kwargs)).1
          ++ (if e.isPg then [Ev.rollback, Ev.release] else [Ev.release]),
        Except.error e) := by
  rcases htb : tryBody sql fetch commit b (mkArguments args kwargs) with ⟨evs, r⟩
  rw [htb] at hbody
  simp only at hbody
  subst hbody
  cases hpg : e.isPg <;>
    simp [query, not_both_args args kwargs hargs, hacq, htb, hpg]

/-- Helper: the trace of a successful invocation, componentwise. -/
theorem query_ok_trace (sql : String) (fetch : RowSet → Except Exc PyVal)
    (commit : Bool) (pipe : Option (PyVal → Except Exc PyVal))
    (args : List PyVal) (kwargs : List (String × PyVal)) (b : Backend)
    (res : PyVal)
    (hargs : args = [] ∨ kwargs = []) (hacq : b.acquire = Except.ok ())
    (hbody : (tryBody sql fetch commit b (mkArguments args kwargs)).2
      = Except.ok res) :
    (query sql fetch commit pipe args kwargs b).1
      = Ev.acquireCall
          :: (tryBody sql fetch commit b (mkArguments args kwargs)).1
          ++ [Ev.release] := by
  rw [query_ok_shape sql fetch commit pipe args kwargs b res hargs hacq
    hbody]

/-- Helper: the trace of a failing invocation, componentwise. -/
theorem query_err_trace (sql : String) (fetch : RowSet → Except Exc PyVal)
    (commit : Bool) (pipe : Option (PyVal → Except Exc PyVal))
    (args : List PyVal) (kwargs : List (String × PyVal)) (b : Backend)
    (e : Exc)
    (hargs : args = [] ∨ kwargs = []) (hacq : b.acquire = Except.ok ())
    (hbody : (tryBody sql fetch commit b (mkArguments args kwargs)).2
      = Except.error e) :
    (query sql fetch commit pipe args kwargs b).1
      = Ev.acquireCall
          :: (tryBody sql fetch commit b (mkArguments args kwargs)).1
          ++ (if e.isPg then [Ev.rollback, Ev.release] else [Ev.release]) := by
  rw [query_err_shape sql fetch commit pipe args kwargs b e hargs hacq
    hbody]

/-- Helper: the outcome of a failing invocation, componentwise. -/
theorem query_err_result (sql : String) (fetch : RowSet → Except Exc PyVal)
    (commit : Bool) (pipe : Option (PyVal → Except Exc PyVal))
    (args : List PyVal) (kwargs : List (String × PyVal)) (b : Backend)
    (e : Exc)
    (hargs : args = [] ∨ kwargs = []) (hacq : b.acquire = Except.ok ())
    (hbody : (tryBody sql fetch commit b (mkArguments args kwargs)).2
      = Except.error e) :
    (query sql fetch commit pipe args kwargs b).2 = Except.error e := by
  rw [query_err_shape sql fetch commit pipe args kwargs b e hargs hacq
    hbody]

/-- Helper: shape of an invocation in which `_pool.getconn()` raises —
the exception passes through and the connection-level operations never
happen. -/
theorem query_acquire_fail (sql : String) (fetch : RowSet → Except Exc PyVal)
    (commit : Bool) (pipe : Option (PyVal → Except Exc PyVal))
    (args : List PyVal) (kwargs : List (String × PyVal)) (b : Backend)
    (e : Exc)
    (hargs : args = [] ∨ kwargs = []) (hacq : b.acquire = Except.error e) :
    query sql fetch commit pipe args kwargs b
      = ([Ev.acquireCall], Except.error e) := by
  simp [query, not_both_args args kwargs hargs, hacq]

/-- C1: in every invocation of a built query function in which pool
acquisition succeeds, the borrowed connection is released back to the
pool exactly once, on every exit path — normal success, execution
failure, extraction failure and commit failure. -/
theorem c1_release_exactly_once (sql : String)
    (fetch : RowSet → Except Exc PyVal) (commit : Bool)
    (pipe : Option (PyVal → Except Exc PyVal))
    (args : List PyVal) (kwargs : List (String × PyVal)) (b : Backend)
    (hargs : args = [] ∨ kwargs = []) (hacq : b.acquire = Except.ok ()) :
    (query sql fetch commit pipe args kwargs b).1.count Ev.release = 1 := by
  rcases hres : (tryBody sql fetch commit b (mkArguments args kwargs)).2
    with e | res
  · rw [query_err_trace sql fetch commit pipe args kwargs b e hargs hacq hres]
    rcases tryBody_events sql fetch commit b (mkArguments args kwargs)
      with h | h | h <;>
      rw [h] <;> cases e.isPg <;> decide
  · rw [query_ok_trace sql fetch commit pipe args kwargs b res hargs hacq hres]
    rcases tryBody_events sql fetch commit b (mkArguments args kwargs)
      with h | h | h <;>
      rw [h] <;> decide

/-- Witness for C1: a committed scalar query over a one-row backend
releases the connection exactly once. -/
theorem c1_release_exactly_once_witness :
    (query "s" (fetchScalar NULL) true Option.none [] []
      backendOneRow).1.count Ev.release = 1 :=
  c1_release_exactly_once "s" (fetchScalar NULL) true Option.none [] []
    backendOneRow (Or.inl rfl) rfl

/-- C2 counterexample: the `except` clause of `query` only catches
`psycopg2.Error`.  With `returning = SCALAR`, a zero-column first row
(PostgreSQL `SELECT FROM t`) makes `row[0]` raise `IndexError` during
extraction; the connection is released and the error re-raised, but no
rollback is issued — so not every extraction error triggers a
rollback. -/
theorem c2_counterexample :
    (query "SELECT FROM t" (fetchScalar NULL) true Option.none [] []
        backendEmptyRow).2 = Except.error Exc.indexError
    ∧ Ev.rollback ∉
      (query "SELECT FROM t" (fetchScalar NULL) true Option.none [] []
        backendEmptyRow).1 :=
  ⟨rfl, by decide⟩

/-- C2 (amended): any error the try block escapes with is re-raised to
the caller, never swallowed; the full event trace is the acquire call,
the try-block events, then — exactly when the error is a
`psycopg2.Error` — the rollback, immediately followed by the release
(rollback-then-release ordering; any other exception gets the release
alone, with no rollback); in particular the connection is released
exactly once and rolled back exactly when the error is a
`psycopg2.Error`. -/
theorem c2_amended_error_propagation (sql : String)
    (fetch : RowSet → Except Exc PyVal) (commit : Bool)
    (pipe : Option (PyVal → Except Exc PyVal))
    (args : List PyVal) (kwargs : List (String × PyVal)) (b : Backend)
    (e : Exc)
    (hargs : args = [] ∨ kwargs = []) (hacq : b.acquire = Except.ok ())
    (hbody : (tryBody sql fetch commit b (mkArguments args kwargs)).2
      = Except.error e) :
    (query sql fetch commit pipe args kwargs b).2 = Except.error e
    ∧ (query sql fetch commit pipe args kwargs b).1
        = Ev.acquireCall
            :: (tryBody sql fetch commit b (mkArguments args kwargs)).1
            ++ (if e.isPg then [Ev.rollback, Ev.release] else [Ev.release])
    ∧ (query sql fetch commit pipe args kwargs b).1.count Ev.release = 1
    ∧ (query sql fetch commit pipe args kwargs b).1.count Ev.rollback
        = (if e.isPg then 1 else 0) := by
  refine ⟨query_err_result sql fetch commit pipe args kwargs b e hargs
      hacq hbody,
    query_err_trace sql fetch commit pipe args kwargs b e hargs hacq
      hbody, ?_, ?_⟩ <;>
    rw [query_err_trace sql fetch commit pipe args kwargs b e hargs hacq
      hbody] <;>
    rcases tryBody_events sql fetch commit b (mkArguments args kwargs)
      with h | h | h <;>
    rw [h] <;> cases e.isPg <;> decide

/-- Witness for C2 (amended): a failed execution (`psycopg2.Error`) is
re-raised after the rollback immediately followed by the release. -/
theorem c2_amended_error_propagation_witness :
    (query "s" (fetchScalar NULL) false Option.none [] []
        backendExecFails).2 = Except.error (Exc.pgError "syntax error")
    ∧ (query "s" (fetchScalar NULL) false Option.none [] []
        backendExecFails).1
        = Ev.acquireCall
            :: (tryBody "s" (fetchScalar NULL) false backendExecFails
              (mkArguments [] [])).1
            ++ (if (Exc.pgError "syntax error").isPg then
                [Ev.rollback, Ev.release] else [Ev.release])
    ∧ (query "s" (fetchScalar NULL) false Option.none [] []
        backendExecFails).1.count Ev.release = 1
    ∧ (query "s" (fetchScalar NULL) false Option.none [] []
        backendExecFails).1.count Ev.rollback
        = (if (Exc.pgError "syntax error").isPg then 1 else 0) :=
  c2_amended_error_propagation "s" (fetchScalar NULL) false Option.none
    [] [] backendExecFails (Exc.pgError "syntax error") (Or.inl rfl) rfl rfl

/-- C3: against a backend whose cursor yields zero rows, the factory
builds the respective query functions, and invoking them returns
exactly `default` for `SCALAR`, exactly `default` for `ROW`, and the
empty ordered sequence for `ROWS` whatever `default` is. -/
theorem c3_zero_rows_default (sql : String) (d : PyVal) (c : Bool)
    (b : Backend)
    (hacq : b.acquire = Except.ok ())
    (hex : b.execute sql Option.none = Except.ok [])
    (hcm : b.commitResult = Except.ok ()) :
    query_factory sql SCALAR d c Option.none
      = Except.ok (query sql (fetchScalar d) c Option.none)
    ∧ (query sql (fetchScalar d) c Option.none [] [] b).2 = Except.ok d
    ∧ query_factory sql ROW d c Option.none
      = Except.ok (query sql (fetchRow d) c Option.none)
    ∧ (query sql (fetchRow d) c Option.none [] [] b).2 = Except.ok d
    ∧ query_factory sql ROWS d c Option.none
      = Except.ok (query sql fetchRows c Option.none)
    ∧ (query sql fetchRows c Option.none [] [] b).2
        = Except.ok (PyVal.rows []) := by
  refine ⟨rfl, ?_, rfl, ?_, rfl, ?_⟩
  · rw [query_ok_shape sql (fetchScalar d) c Option.none [] [] b d
      (Or.inl rfl) hacq
      (tryBody_ok_of sql (fetchScalar d) c b (mkArguments [] []) [] d
        hex rfl hcm)]
  · rw [query_ok_shape sql (fetchRow d) c Option.none [] [] b d
      (Or.inl rfl) hacq
      (tryBody_ok_of sql (fetchRow d) c b (mkArguments [] []) [] d
        hex rfl hcm)]
  · rw [query_ok_shape sql fetchRows c Option.none [] [] b (PyVal.rows [])
      (Or.inl rfl) hacq
      (tryBody_ok_of sql fetchRows c b (mkArguments [] []) []
        (PyVal.rows []) hex rfl hcm)]

/-- Witness for C3 at the zero-row fixture backend. -/
theorem c3_zero_rows_default_witness :
    query_factory "s3" SCALAR NULL false Option.none
      = Except.ok (query "s3" (fetchScalar NULL) false Option.none)
    ∧ (query "s3" (fetchScalar NULL) false Option.none [] []
        backendNoRows).2 = Except.ok NULL
    ∧ query_factory "s3" ROW NULL false Option.none
      = Except.ok (query "s3" (fetchRow NULL) false Option.none)
    ∧ (query "s3" (fetchRow NULL) false Option.none [] []
        backendNoRows).2 = Except.ok NULL
    ∧ query_factory "s3" ROWS NULL false Option.none
      = Except.ok (query "s3" fetchRows false Option.none)
    ∧ (query "s3" fetchRows false Option.none [] [] backendNoRows).2
        = Except.ok (PyVal.rows []) :=
  c3_zero_rows_default "s3" NULL false backendNoRows rfl rfl rfl

/-- C4: for `SCALAR`, a first row whose first column is a logical null
yields `default`, not the null; a first row whose first column is
non-null yields that column value. -/
theorem c4_scalar_null_vs_value (sql : String) (d : PyVal) (c : Bool)
    (b1 b2 : Backend) (r1 r2 : Row) (t1 t2 : RowSet) (v : Int)
    (h1a : b1.acquire = Except.ok ())
    (h1c : b1.commitResult = Except.ok ())
    (h1e : b1.execute sql Option.none
      = Except.ok ((Option.none :: r1) :: t1))
    (h2a : b2.acquire = Except.ok ())
    (h2c : b2.commitResult = Except.ok ())
    (h2e : b2.execute sql Option.none
      = Except.ok ((some v :: r2) :: t2)) :
    (query sql (fetchScalar d) c Option.none [] [] b1).2 = Except.ok d
    ∧ (query sql (fetchScalar d) c Option.none [] [] b2).2
        = Except.ok (PyVal.cell (some v)) := by
  constructor
  · rw [query_ok_shape sql (fetchScalar d) c Option.none [] [] b1 d
      (Or.inl rfl) h1a
      (tryBody_ok_of sql (fetchScalar d) c b1 (mkArguments [] [])
        ((Option.none :: r1) :: t1) d h1e rfl h1c)]
  · rw [query_ok_shape sql (fetchScalar d) c Option.none [] [] b2
      (PyVal.cell (some v)) (Or.inl rfl) h2a
      (tryBody_ok_of sql (fetchScalar d) c b2 (mkArguments [] [])
        ((some v :: r2) :: t2) (PyVal.cell (some v)) h2e
        (by simp [fetchScalar]) h2c)]

/-- Witness for C4: NULL first column yields the default, a non-null
first column yields its value. -/
theorem c4_scalar_null_vs_value_witness :
    (query "s4" (fetchScalar (PyVal.cell (some 0))) false Option.none
        [] [] backendNullCell).2 = Except.ok (PyVal.cell (some 0))
    ∧ (query "s4" (fetchScalar (PyVal.cell (some 0))) false Option.none
        [] [] backendOneRow).2 = Except.ok (PyVal.cell (some 5)) :=
  c4_scalar_null_vs_value "s4" (PyVal.cell (some 0)) false
    backendNullCell backendOneRow [some 3] [] [] [] 5
    rfl rfl rfl rfl rfl rfl

/-- C5: supplying both a non-empty positional argument sequence and a
non-empty keyword mapping makes the call fail with the argument
`ValueError` (the spec's `ArgumentError`), with an empty event trace —
in particular `_pool.getconn()` is never called. -/
theorem c5_both_argument_kinds_rejected (sql : String)
    (fetch : RowSet → Except Exc PyVal) (commit : Bool)
    (pipe : Option (PyVal → Except Exc PyVal))
    (args : List PyVal) (kwargs : List (String × PyVal)) (b : Backend)
    (ha : args ≠ []) (hk : kwargs ≠ []) :
    query sql fetch commit pipe args kwargs b
      = ([], Except.error (Exc.valueError
          "Cannot pass both positional and keyword arguments to a query.")) := by
  simp [query, ha, hk]

/-- Witness for C5 at concrete arguments. -/
theorem c5_both_argument_kinds_rejected_witness :
    query "s5" (fetchScalar NULL) false Option.none [NULL]
      [("k", NULL)] backendOneRow
      = ([], Except.error (Exc.valueError
          "Cannot pass both positional and keyword arguments to a query.")) :=
  c5_both_argument_kinds_rejected "s5" (fetchScalar NULL) false
    Option.none [NULL] [("k", NULL)] backendOneRow
    (by decide) (by decide)

/-- C6: an unknown `returning` kind (any value other than `SCALAR`,
`ROW`, `ROWS`, `NOTHING`) makes `query_factory` itself fail with the
`ValueError` (the spec's `ConfigurationError`), so no query function is
produced and the failure happens at build time. -/
theorem c6_unknown_returning_fails_at_build (sql : String) (d : PyVal)
    (c : Bool) (pipe : Option (PyVal → Except Exc PyVal)) (n : Int)
    (h0 : n ≠ 0) (h1 : n ≠ 1) (h2 : n ≠ 2) :
    query_factory sql (some n) d c pipe
      = Except.error (Exc.valueError "Unknown query return type") := by
  simp [query_factory, SCALAR, ROW, ROWS, NOTHING, h0, h1, h2]

/-- Witness for C6 at the unknown kind `7`. -/
theorem c6_unknown_returning_fails_at_build_witness :
    query_factory "s6" (some 7) NULL false Option.none
      = Except.error (Exc.valueError "Unknown query return type") :=
  c6_unknown_returning_fails_at_build "s6" NULL false Option.none 7
    (by decide) (by decide) (by decide)

/-- C7 counterexample: commit requested, execution reached the backend
(the execute call is in the trace), yet the invocation performs neither
a commit nor a rollback — the extraction `IndexError` on a zero-column
row is not a `psycopg2.Error`, so the rollback branch is skipped and
the commit statement is never reached. -/
theorem c7_counterexample :
    (query "SELECT FROM t1" (fetchScalar (PyVal.cell (some 0))) true
        Option.none [] [] backendEmptyRow).1.count Ev.commitOk = 0
    ∧ (query "SELECT FROM t1" (fetchScalar (PyVal.cell (some 0))) true
        Option.none [] [] backendEmptyRow).1.count Ev.rollback = 0
    ∧ Ev.executeCall ∈
      (query "SELECT FROM t1" (fetchScalar (PyVal.cell (some 0))) true
        Option.none [] [] backendEmptyRow).1 :=
  ⟨by decide, by decide, by decide⟩

/-- C7 (amended): when commit is requested and acquisition succeeds,
and the invocation either succeeds or fails with a `psycopg2.Error`,
exactly one successful commit or exactly one rollback is performed
(their counts sum to one, so never both and never neither); when the
invocation fails with an exception of any other class, neither a
successful commit nor a rollback is performed; when pool acquisition
itself fails, zero commits (successful or failed) and zero rollbacks
are performed. -/
theorem c7_amended_commit_xor_rollback (sql : String)
    (fetch : RowSet → Except Exc PyVal)
    (pipe : Option (PyVal → Except Exc PyVal))
    (args : List PyVal) (kwargs : List (String × PyVal)) (b : Backend)
    (hargs : args = [] ∨ kwargs = []) :
    (b.acquire = Except.ok () →
      (∀ e, (tryBody sql fetch true b (mkArguments args kwargs)).2
          = Except.error e → e.isPg = true) →
      (query sql fetch true pipe args kwargs b).1.count Ev.commitOk
        + (query sql fetch true pipe args kwargs b).1.count Ev.rollback
        = 1)
    ∧ (b.acquire = Except.ok () →
      ∀ e, (tryBody sql fetch true b (mkArguments args kwargs)).2
          = Except.error e → e.isPg = false →
        (query sql fetch true pipe args kwargs b).1.count Ev.commitOk = 0
        ∧ (query sql fetch true pipe args kwargs b).1.count Ev.rollback
            = 0)
    ∧ (∀ e, b.acquire = Except.error e →
        (query sql fetch true pipe args kwargs b).1.count Ev.commitOk = 0
        ∧ (query sql fetch true pipe args kwargs b).1.count Ev.commitFail
            = 0
        ∧ (query sql fetch true pipe args kwargs b).1.count Ev.rollback
            = 0) := by
  refine ⟨?_, ?_, ?_⟩
  · intro hacq hpg
    rcases hres : (tryBody sql fetch true b (mkArguments args kwargs)).2
      with e | res
    · rw [query_err_trace sql fetch true pipe args kwargs b e hargs hacq
        hres, hpg e hres]
      rcases tryBody_err_events sql fetch true b (mkArguments args kwargs)
        e hres with h | h <;> rw [h] <;> decide
    · rw [query_ok_trace sql fetch true pipe args kwargs b res hargs hacq
        hres,
        tryBody_ok_commit_events sql fetch b (mkArguments args kwargs)
          res hres]
      decide
  · intro hacq e hres hnp
    rw [query_err_trace sql fetch true pipe args kwargs b e hargs hacq
      hres, hnp]
    rcases tryBody_err_events sql fetch true b (mkArguments args kwargs)
      e hres with h | h <;> rw [h] <;> exact ⟨by decide, by decide⟩
  · intro e hacq
    rw [query_acquire_fail sql fetch true pipe args kwargs b e hargs hacq]
    exact ⟨rfl, rfl, rfl⟩

/-- Witness for C7 (amended): a failed commit (`psycopg2.Error`) ends
in exactly one rollback and no successful commit, and a non-psycopg2
extraction failure (`IndexError` on a zero-column row) ends in neither
a commit nor a rollback. -/
theorem c7_amended_commit_xor_rollback_witness :
    ((query "s7" (fetchScalar NULL) true Option.none [] []
        backendCommitFails).1.count Ev.commitOk
      + (query "s7" (fetchScalar NULL) true Option.none [] []
        backendCommitFails).1.count Ev.rollback = 1)
    ∧ ((query "s7b" (fetchScalar NULL) true Option.none [] []
        backendEmptyRow).1.count Ev.commitOk = 0
      ∧ (query "s7b" (fetchScalar NULL) true Option.none [] []
        backendEmptyRow).1.count Ev.rollback = 0) :=
  ⟨(c7_amended_commit_xor_rollback "s7" (fetchScalar NULL) Option.none
      [] [] backendCommitFails (Or.inl rfl)).1 rfl
    (fun e he => by
      have h2 := Except.error.inj he
      rw [← h2]; rfl),
   (c7_amended_commit_xor_rollback "s7b" (fetchScalar NULL) Option.none
      [] [] backendEmptyRow (Or.inl rfl)).2.1 rfl Exc.indexError rfl rfl⟩

/-- C8: on an invocation that completes without error, a declared
transform is applied to the shaped extractor result and its output
returned; with no transform declared the shaped result is returned
unchanged. -/
theorem c8_pipe_transform_or_identity (sql : String)
    (fetch : RowSet → Except Exc PyVal) (commit : Bool)
    (args : List PyVal) (kwargs : List (String × PyVal)) (b : Backend)
    (res : PyVal) (p : PyVal → Except Exc PyVal)
    (hargs : args = [] ∨ kwargs = []) (hacq : b.acquire = Except.ok ())
    (hbody : (tryBody sql fetch commit b (mkArguments args kwargs)).2
      = Except.ok res) :
    (query sql fetch commit (some p) args kwargs b).2 = p res
    ∧ (query sql fetch commit Option.none args kwargs b).2
        = Except.ok res := by
  constructor
  · rw [query_ok_shape sql fetch commit (some p) args kwargs b res hargs
      hacq hbody]
  · rw [query_ok_shape sql fetch commit Option.none args kwargs b res
      hargs hacq hbody]

/-- Witness for C8: a constant transform is applied; absence of the
transform returns the shaped scalar unchanged. -/
theorem c8_pipe_transform_or_identity_witness :
    (query "s8" (fetchScalar NULL) false
        (some (fun _ => Except.ok (PyVal.cell (some 99)))) [] []
        backendOneRow).2
      = (fun _ => Except.ok (PyVal.cell (some 99))) (PyVal.cell (some 5))
    ∧ (query "s8" (fetchScalar NULL) false Option.none [] []
        backendOneRow).2 = Except.ok (PyVal.cell (some 5)) :=
  c8_pipe_transform_or_identity "s8" (fetchScalar NULL) false [] []
    backendOneRow (PyVal.cell (some 5))
    (fun _ => Except.ok (PyVal.cell (some 99))) (Or.inl rfl) rfl rfl

/-- C9: constructing the pool with bounds violating
`0 < minconn ≤ maxconn` fails with the `AssertionError` (the spec's
`ConfigurationError`) before the pool is built — no connection is
opened; with valid bounds the pool is constructed and returned together
with `query_factory`. -/
theorem c9_pool_bounds (minconn maxconn : Int) :
    (¬(maxconn ≥ minconn ∧ minconn > 0) →
      initializePool minconn maxconn
        = ([], Except.error Exc.assertionError))
    ∧ (maxconn ≥ minconn ∧ minconn > 0 →
      initializePool minconn maxconn
        = ([InitEv.openPool],
          Except.ok (⟨minconn, maxconn⟩, query_factory))) := by
  constructor
  · intro h; simp [initializePool, h]
  · intro h; simp [initializePool, h]

/-- Witness for C9: bounds `3 > 2` are rejected with nothing opened;
bounds `1 ≤ 4` construct the pool and return the factory. -/
theorem c9_pool_bounds_witness :
    initializePool 3 2 = ([], Except.error Exc.assertionError)
    ∧ initializePool 1 4
        = ([InitEv.openPool], Except.ok (⟨1, 4⟩, query_factory)) :=
  ⟨(c9_pool_bounds 3 2).1 (by decide), (c9_pool_bounds 1 4).2 (by decide)⟩

/-- C10: when the caller-supplied transform itself raises, the error
propagates to the caller only after the connection was already released
(the release is in the trace, which is complete before the pipe runs),
no rollback is performed, and when commit was requested the transaction
was already committed. -/
theorem c10_pipe_error_after_release (sql : String)
    (fetch : RowSet → Except Exc PyVal) (commit : Bool)
    (args : List PyVal) (kwargs : List (String × PyVal)) (b : Backend)
    (res : PyVal) (p : PyVal → Except Exc PyVal) (e : Exc)
    (hargs : args = [] ∨ kwargs = []) (hacq : b.acquire = Except.ok ())
    (hbody : (tryBody sql fetch commit b (mkArguments args kwargs)).2
      = Except.ok res)
    (hp : p res = Except.error e) :
    query sql fetch commit (some p) args kwargs b
      = (Ev.acquireCall
          :: (tryBody sql fetch commit b (mkArguments args kwargs)).1
          ++ [Ev.release], Except.error e)
    ∧ Ev.rollback ∉ (query sql fetch commit (some p) args kwargs b).1
    ∧ (commit = true →
        (query sql fetch commit (some p) args kwargs b).1.count
          Ev.commitOk = 1) := by
  have hq := query_ok_shape sql fetch commit (some p) args kwargs b res
    hargs hacq hbody
  have ht := query_ok_trace sql fetch commit (some p) args kwargs b res
    hargs hacq hbody
  refine ⟨?_, ?_, ?_⟩
  · rw [hq]; simp [hp]
  · rw [ht]
    rcases tryBody_events sql fetch commit b (mkArguments args kwargs)
      with h | h | h <;> rw [h] <;> decide
  · intro hc; subst hc
    rw [ht, tryBody_ok_commit_events sql fetch b (mkArguments args kwargs)
      res hbody]
    decide

/-- Witness for C10: a raising transform after a committed scalar
query — the trace already holds the commit and the release, no
rollback. -/
theorem c10_pipe_error_after_release_witness :
    query "s10" (fetchScalar NULL) true
        (some (fun _ => Except.error (Exc.otherError "bad pipe"))) [] []
        backendOneRow
      = (Ev.acquireCall
          :: (tryBody "s10" (fetchScalar NULL) true backendOneRow
            (mkArguments [] [])).1
          ++ [Ev.release], Except.error (Exc.otherError "bad pipe"))
    ∧ Ev.rollback ∉
      (query "s10" (fetchScalar NULL) true
        (some (fun _ => Except.error (Exc.otherError "bad pipe"))) [] []
        backendOneRow).1
    ∧ (true = true →
        (query "s10" (fetchScalar NULL) true
          (some (fun _ => Except.error (Exc.otherError "bad pipe"))) [] []
          backendOneRow).1.count Ev.commitOk = 1) :=
  c10_pipe_error_after_release "s10" (fetchScalar NULL) true [] []
    backendOneRow (PyVal.cell (some 5))
    (fun _ => Except.error (Exc.otherError "bad pipe"))
    (Exc.otherError "bad pipe") (Or.inl rfl) rfl rfl rfl

end Nativegres
